import Mathlib

/-!
Shallow embedding of the Logiq authorization / progressive-rollout control
plane, together with theorems settling the specification claims.

Source files embedded:
- `src/utils/rollout.py` (`StoatRolloutManager`)
- `src/utils/feature_flags.py` (`StoatFeatureFlags`)
- `src/utils/permissions.py` (`PermissionChecker`)
- `src/adapters/stoat_permissions.py` (`RoleHierarchy`)

Modelling conventions: Python dicts keyed by strings become functions
`String → Option _` (with the `.get(k, default)` defaults applied at use
sites, exactly where the source applies them); Python sets of server ids
become `List String` with membership by `List.elem`; Python's process-local
`hash` builtin is an uninterpreted parameter `h : String → Int` (it is fixed
within a process run, which is all the claims need); Python's `%` on ints is
`Int.emod`, i.e. Lean's `%` on `Int`, both returning a value in `[0, m)` for
a positive modulus; async lookups that return `None` for a missing record
become `Option`; a spot where the source would raise (attribute access on
`None`) inside a `try` block caught by a blanket `except` is modelled by
returning the handler's value at that spot.
-/

/-- `RolloutPhase` enum from `src/utils/rollout.py`. -/
inductive RolloutPhase where
  | internal
  | beta
  | gradual
  | stable
  | deprecated
  deriving DecidableEq, Repr

/-- `RolloutPhase(phase_str)`: the enum constructor, `none` when the string
is not a member (the Python call raises `ValueError` there). -/
def RolloutPhase.ofString : String → Option RolloutPhase
  | "internal" => some .internal
  | "beta" => some .beta
  | "gradual" => some .gradual
  | "stable" => some .stable
  | "deprecated" => some .deprecated
  | _ => none

/-- The mutable registry of `StoatRolloutManager`: `_phase_config`,
`_rollout_percentages`, `_whitelist`, `_blacklist`. The two set-valued dicts
default to the empty set at their use sites (`.get(feature, set())`), so a
feature absent from them is a feature mapped to `[]`. -/
structure RolloutState where
  phase_config : String → Option RolloutPhase
  rollout_percentages : String → Option Int
  whitelist : String → List String
  blacklist : String → List String

/-- `StoatRolloutManager.can_use_feature`, parameterised by the process's
string-hash function `h`. -/
def can_use_feature (h : String → Int) (s : RolloutState)
    (feature server_id : String) : Bool :=
  let phase := (s.phase_config feature).getD RolloutPhase.internal
  if phase = RolloutPhase.stable then
    true
  else if phase = RolloutPhase.deprecated then
    false
  else if (s.blacklist feature).elem server_id then
    false
  else if phase = RolloutPhase.beta then
    (s.whitelist feature).elem server_id
  else if phase = RolloutPhase.gradual then
    let percentage := (s.rollout_percentages feature).getD 0
    decide (h (server_id ++ "_" ++ feature) % 100 < percentage)
  else
    false

/-- `StoatRolloutManager.set_rollout_percentage`: clamps to `[0, 100]` via
`max(0, min(100, percentage))`, then stores. -/
def set_rollout_percentage (s : RolloutState) (feature : String)
    (percentage : Int) : RolloutState :=
  let clamped := max 0 (min 100 percentage)
  { s with rollout_percentages :=
      fun f => if f = feature then some clamped else s.rollout_percentages f }

/-- `StoatRolloutManager.add_blacklist`. -/
def add_blacklist (s : RolloutState) (feature server_id : String) :
    RolloutState :=
  { s with blacklist :=
      fun f => if f = feature then server_id :: s.blacklist f
               else s.blacklist f }

/-- `StoatRolloutManager.add_whitelist`. -/
def add_whitelist (s : RolloutState) (feature server_id : String) :
    RolloutState :=
  { s with whitelist :=
      fun f => if f = feature then server_id :: s.whitelist f
               else s.whitelist f }

/-- A parsed import payload for `StoatRolloutManager.import_config`:
the four JSON sections, each an association list in object order (Python
dict iteration order is insertion order, which matters because the source
mutates the registry entry by entry). -/
structure ImportConfig where
  phases : List (String × String)
  percentages : List (String × Int)
  whitelist : List (String × List String)
  blacklist : List (String × List String)

/-- Point update of a string-keyed map. -/
def updMap {α : Type} (m : String → α) (k : String) (v : α) : String → α :=
  fun x => if x = k then v else m x

/-- The `for feature, phase_str in config.get('phases', {}).items()` loop of
`import_config`: applies entries in order; at the first phase string that is
not a valid enum value the loop raises (`RolloutPhase(phase_str)` raises
`ValueError`), leaving the updates already made in place. Returns the map as
mutated so far and whether the loop finished without raising. -/
def applyPhases (pc : String → Option RolloutPhase) :
    List (String × String) → (String → Option RolloutPhase) × Bool
  | [] => (pc, true)
  | (f, ps) :: rest =>
    match RolloutPhase.ofString ps with
    | some p => applyPhases (updMap pc f (some p)) rest
    | none => (pc, false)

/-- `self._rollout_percentages.update(config.get('percentages', {}))`. -/
def applyPercentages (m : String → Option Int) :
    List (String × Int) → String → Option Int
  | [] => m
  | (f, p) :: rest => applyPercentages (updMap m f (some p)) rest

/-- The whitelist / blacklist loops: `self._whitelist[feature] =
set(servers)` for each entry. -/
def applySetLists (m : String → List String) :
    List (String × List String) → String → List String
  | [] => m
  | (f, servers) :: rest => applySetLists (updMap m f servers) rest

/-- `StoatRolloutManager.import_config` on an already-parsed payload. The
whole body runs inside `try`; when the phases loop raises on an invalid
phase string, the blanket `except` catches it and the method returns, so
the phase updates made before the bad entry persist and the percentage /
whitelist / blacklist sections are never reached. -/
def import_config (s : RolloutState) (cfg : ImportConfig) : RolloutState :=
  match applyPhases s.phase_config cfg.phases with
  | (pc, false) => { s with phase_config := pc }
  | (pc, true) =>
    { phase_config := pc
      rollout_percentages := applyPercentages s.rollout_percentages cfg.percentages
      whitelist := applySetLists s.whitelist cfg.whitelist
      blacklist := applySetLists s.blacklist cfg.blacklist }

/-! ### `src/utils/feature_flags.py` -/

/-- `FeatureStatus` enum from `src/utils/feature_flags.py`. -/
inductive FeatureStatus where
  | disabled
  | internal
  | beta
  | gradual
  | enabled
  deriving DecidableEq, Repr

/-- One entry of `StoatFeatureFlags.flags` (the `description` field is
never read by the decision logic and is omitted). -/
structure FlagEntry where
  status : FeatureStatus
  rollout : Int

/-- The `StoatFeatureFlags` registry. -/
structure StoatFeatureFlags where
  flags : String → Option FlagEntry

/-- `StoatFeatureFlags.is_enabled`. `server_id` is `Optional[str]` and the
source guards with truthiness (`if server_id:`), so `None` and the empty
string both fall through to `False` for gradual/beta/internal statuses. -/
def is_enabled (h : String → Int) (ff : StoatFeatureFlags)
    (feature : String) (server_id : Option String) : Bool :=
  match ff.flags feature with
  | none => false
  | some flag =>
    if flag.status = FeatureStatus.disabled then
      false
    else if flag.status = FeatureStatus.enabled then
      true
    else
      match server_id with
      | some sid =>
        if sid ≠ "" then
          decide (h (sid ++ "_" ++ feature) % 100 < flag.rollout)
        else false
      | none => false

/-! ### Membership / role / guild data model

External lookups (`db.get_member`, `db.get_role`, `db.get_guild`) return a
record or `None`; they are modelled as total functions into `Option`. -/

/-- A member record: the fields read by the decision logic
(`member.get("roles", [])`, `member.get("is_admin", False)`,
`member.get("is_mod", False)`, `member.get("permissions", [])`). -/
structure Member where
  roles : List String
  is_admin : Bool
  is_mod : Bool
  permissions : List String

/-- A role record: only `position` is read (`role.get("position", 0)`). -/
structure Role where
  position : Int

/-- A guild record: only `owner_id` is read. -/
structure Guild where
  owner_id : String

/-- The external lookup provider. -/
structure Db where
  members : String → String → Option Member
  roles : String → String → Option Role
  guilds : String → Option Guild

namespace RoleHierarchy

/-- `RoleHierarchy._check_permission` from
`src/adapters/stoat_permissions.py`. -/
def check_permission (db : Db) (guild_id user_id permission : String) :
    Bool :=
  match db.members guild_id user_id with
  | none => false
  | some member => member.is_admin || member.permissions.elem permission

/-- The position of `RoleHierarchy._get_top_role`'s result: missing role
ids are skipped (`if role:`), and an empty resolved list yields the
sentinel `{"position": -1}`. Only the position of the returned dict is ever
read, so the embedding returns it directly. -/
def get_top_role_position (db : Db) (guild_id : String)
    (role_ids : List String) : Int :=
  let ps := role_ids.filterMap fun rid =>
    (db.roles guild_id rid).map Role.position
  match ps with
  | [] => -1
  | p :: rest => rest.foldl max p

/-- `RoleHierarchy.can_moderate_member`. The body runs inside `try`: when
the guild lookup returns `None`, the first `guild.get("owner_id")` raises
`AttributeError`, caught by the blanket `except`, which returns
`(False, "Permission check failed")` — modelled at the point of use. The
member-existence check precedes that first use of `guild`. -/
def can_moderate_member (db : Db) (moderator_id target_id guild_id : String) :
    Bool × Option String :=
  if moderator_id = target_id then
    (false, some "Cannot moderate yourself")
  else
    match db.members guild_id moderator_id, db.members guild_id target_id with
    | none, _ => (false, some "Member not found")
    | some _, none => (false, some "Member not found")
    | some moderator, some target =>
      match db.guilds guild_id with
      | none => (false, some "Permission check failed")
      | some guild =>
        if moderator_id = guild.owner_id then
          (true, none)
        else if target_id = guild.owner_id then
          (false, some "Cannot moderate server owner")
        else
          let has_kick := check_permission db guild_id moderator_id "kick_members"
          let has_ban := check_permission db guild_id moderator_id "ban_members"
          if !(has_kick || has_ban) then
            (false, some "You don't have permission to moderate")
          else
            let mod_top := get_top_role_position db guild_id moderator.roles
            let target_top := get_top_role_position db guild_id target.roles
            if mod_top ≤ target_top then
              (false, some "Target has equal or higher role")
            else
              (true, none)

/-- `RoleHierarchy.can_manage_role`. As in `can_moderate_member`, a `None`
guild makes `guild.get("owner_id")` raise inside the `try`, and the handler
returns `False`. -/
def can_manage_role (db : Db) (executor_id target_role_id guild_id : String) :
    Bool :=
  match db.members guild_id executor_id, db.roles guild_id target_role_id with
  | none, _ => false
  | some _, none => false
  | some executor, some target_role =>
    match db.guilds guild_id with
    | none => false
    | some guild =>
      if executor_id = guild.owner_id then
        true
      else if executor.is_admin then
        get_top_role_position db guild_id executor.roles > target_role.position
      else
        false

end RoleHierarchy

namespace PermissionChecker

/-- `permission.lower()`: character-wise lowercasing (the permission names
involved are ASCII, where Python's `str.lower` acts exactly per
character). -/
def strLower (s : String) : String := String.mk (s.data.map Char.toLower)

/-- The `permissions_map` table inside
`PermissionChecker.has_permission` (`src/utils/permissions.py`). -/
def permissions_map : List (String × Nat) :=
  [("ban_members", 2), ("kick_members", 2), ("manage_members", 2),
   ("manage_roles", 2), ("manage_channels", 2), ("manage_messages", 2),
   ("mute_members", 1), ("deafen_members", 1),
   ("send_messages", 0), ("read_messages", 0)]

/-- `PermissionChecker.get_permission_level`: 3 = owner, 2 = admin,
1 = mod, 0 = user; absence of a member record yields 0. The owner check
guards against a missing guild with truthiness (`if guild and ...`). -/
def get_permission_level (db : Db) (guild_id user_id : String) : Nat :=
  let ownerMatch : Bool := match db.guilds guild_id with
    | some guild => guild.owner_id == user_id
    | none => false
  if ownerMatch then 3
  else
    match db.members guild_id user_id with
    | none => 0
    | some member =>
      if member.is_admin then 2
      else if member.is_mod then 1
      else 0

/-- `PermissionChecker.has_permission`: lowercases the name, looks up the
required level with default 0, and grants iff the user's resolved level is
at least the required one. -/
def has_permission (db : Db) (guild_id user_id permission : String) : Bool :=
  let p := strLower permission
  let required_level := (permissions_map.lookup p).getD 0
  let user_level := get_permission_level db guild_id user_id
  decide (required_level ≤ user_level)

/-- `PermissionChecker.can_moderate` from `src/utils/permissions.py`. -/
def can_moderate (db : Db) (guild_id moderator_id target_id : String) :
    Bool × Option String :=
  if moderator_id = target_id then
    (false, some "You cannot moderate yourself")
  else
    match db.members guild_id moderator_id with
    | none => (false, some "You have no permissions")
    | some mod_member =>
      if !(mod_member.is_mod || mod_member.is_admin) then
        (false, some "You are not a moderator or admin")
      else
        let targetIsOwner : Bool := match db.guilds guild_id with
          | some guild => guild.owner_id == target_id
          | none => false
        if targetIsOwner then
          (false, some "You cannot moderate the server owner")
        else
          (true, none)

end PermissionChecker

/-! ## Theorems -/

/-- A registry holding one feature, `tickets`, in phase `stable` with
server `s1` on its blacklist. -/
def c1_state : RolloutState where
  phase_config := fun f => if f = "tickets" then some RolloutPhase.stable else none
  rollout_percentages := fun _ => none
  whitelist := fun _ => []
  blacklist := fun f => if f = "tickets" then ["s1"] else []

/-- C1 counterexample: server `s1` is on the blacklist of feature
`tickets`, yet with the phase set to `stable` the decision is `true` —
`can_use_feature` returns on `phase == STABLE` before consulting the
blacklist, so blacklist membership is not the first-match condition and
does not deny in phase `stable`. -/
theorem C1_counterexample :
    (c1_state.blacklist "tickets").elem "s1" = true ∧
    c1_state.phase_config "tickets" = some RolloutPhase.stable ∧
    can_use_feature (fun _ => 0) c1_state "tickets" "s1" = true := by
  refine ⟨rfl, rfl, rfl⟩

/-- C1 amended: if the tenant is on the feature's blacklist and the
feature's phase (defaulting to `internal` when unregistered) is not
`stable`, the decision is `false`, regardless of whitelist membership and
rollout percentage; in phase `stable` the decision is `true` even for
blacklisted tenants, and in `deprecated` it is `false` for everyone. -/
theorem C1_blacklist_denies_except_stable (h : String → Int)
    (s : RolloutState) (feature server_id : String)
    (hb : (s.blacklist feature).elem server_id = true)
    (hp : (s.phase_config feature).getD RolloutPhase.internal ≠
      RolloutPhase.stable) :
    can_use_feature h s feature server_id = false := by
  unfold can_use_feature
  rcases hph : (s.phase_config feature).getD RolloutPhase.internal
  case stable => exact absurd hph hp
  all_goals (simp only [hb]; rfl)

/-- Witness for `C1_blacklist_denies_except_stable` at a concrete state:
feature `ai` in phase `beta` with `s9` blacklisted (and whitelisted). -/
theorem C1_witness :
    ((((RolloutState.mk (fun f => if f = "ai" then some RolloutPhase.beta else none)
        (fun _ => none) (fun _ => ["s9"]) (fun _ => ["s9"])).blacklist "ai").elem "s9" = true) ∧
     can_use_feature (fun _ => 7) (RolloutState.mk
        (fun f => if f = "ai" then some RolloutPhase.beta else none)
        (fun _ => none) (fun _ => ["s9"]) (fun _ => ["s9"])) "ai" "s9" = false) :=
  ⟨rfl, C1_blacklist_denies_except_stable (fun _ => 7) _ "ai" "s9" rfl (by decide)⟩

/-- Evaluation of `can_use_feature` in phase `gradual`: the decision is
"not blacklisted, and hash mod 100 below the stored percentage". -/
theorem can_use_feature_gradual_eval (h : String → Int) (s : RolloutState)
    (feature server_id : String)
    (hph : (s.phase_config feature).getD RolloutPhase.internal =
      RolloutPhase.gradual) :
    can_use_feature h s feature server_id =
      (!((s.blacklist feature).elem server_id) &&
        decide (h (server_id ++ "_" ++ feature) % 100 <
          (s.rollout_percentages feature).getD 0)) := by
  unfold can_use_feature
  simp only [hph]
  cases hb : (s.blacklist feature).elem server_id <;> rfl

/-- C3: monotonicity of the gradual bucket test. For a fixed tenant and a
feature in phase `gradual`, if the decision is `true` after setting the
rollout percentage to `p1`, it is `true` after setting it to any `p2 > p1`:
the same hash value `h (server_id ++ "_" ++ feature) % 100` is compared
against the (clamped) threshold at every percentage, and the clamp is
monotone. -/
theorem C3_gradual_monotone (h : String → Int) (s : RolloutState)
    (feature server_id : String) (p1 p2 : Int)
    (hph : (s.phase_config feature).getD RolloutPhase.internal =
      RolloutPhase.gradual)
    (hlt : p1 < p2)
    (h1 : can_use_feature h (set_rollout_percentage s feature p1)
      feature server_id = true) :
    can_use_feature h (set_rollout_percentage s feature p2)
      feature server_id = true := by
  have e1 := can_use_feature_gradual_eval h (set_rollout_percentage s feature p1)
    feature server_id hph
  have e2 := can_use_feature_gradual_eval h (set_rollout_percentage s feature p2)
    feature server_id hph
  rw [e1] at h1
  rw [e2]
  have hpe : ∀ p : Int,
      (((set_rollout_percentage s feature p).rollout_percentages feature).getD 0)
        = max 0 (min 100 p) := by
    intro p
    show (if feature = feature then some (max 0 (min 100 p))
      else s.rollout_percentages feature).getD 0 = max 0 (min 100 p)
    rw [if_pos rfl]
    rfl
  rw [hpe] at h1
  rw [hpe]
  rw [Bool.and_eq_true] at h1 ⊢
  obtain ⟨hbl, hlt1⟩ := h1
  exact ⟨hbl, decide_eq_true (lt_of_lt_of_le (of_decide_eq_true hlt1)
    (max_le_max (le_refl 0) (min_le_min (le_refl 100) hlt.le)))⟩

/-- Witness for `C3_gradual_monotone`: a one-feature registry in phase
`gradual`, hash constantly 3, percentages 10 then 20. -/
theorem C3_witness :
    can_use_feature (fun _ => 3)
      (set_rollout_percentage (RolloutState.mk
        (fun _ => some RolloutPhase.gradual) (fun _ => none)
        (fun _ => []) (fun _ => [])) "eco" 20) "eco" "s1" = true :=
  C3_gradual_monotone (fun _ => 3) _ "eco" "s1" 10 20 rfl (by decide) (by decide)

/-- C8: gradual-phase boundary percentages. For a feature in phase
`gradual` and a tenant not on its blacklist, the decision is `false`
whenever the stored rollout percentage is 0 and `true` whenever it is 100,
for every tenant and every hash function: the bucket value
`h (server_id ++ "_" ++ feature) % 100` always lies in `[0, 100)`. -/
theorem C8_gradual_boundaries (h : String → Int) (s : RolloutState)
    (feature server_id : String)
    (hph : (s.phase_config feature).getD RolloutPhase.internal =
      RolloutPhase.gradual)
    (hb : (s.blacklist feature).elem server_id = false) :
    ((s.rollout_percentages feature).getD 0 = 0 →
      can_use_feature h s feature server_id = false) ∧
    ((s.rollout_percentages feature).getD 0 = 100 →
      can_use_feature h s feature server_id = true) := by
  rw [can_use_feature_gradual_eval h s feature server_id hph, hb]
  constructor <;> intro hp <;> rw [hp] <;> simp only [Bool.not_false, Bool.true_and]
  · exact decide_eq_false (not_lt.mpr (Int.emod_nonneg _ (by norm_num)))
  · exact decide_eq_true (Int.emod_lt_of_pos _ (by norm_num))

/-- A one-feature gradual registry at percentage 0, for the C8 witness. -/
def c8_state : RolloutState where
  phase_config := fun _ => some RolloutPhase.gradual
  rollout_percentages := fun _ => some 0
  whitelist := fun _ => []
  blacklist := fun _ => []

/-- Witness for `C8_gradual_boundaries`: a state with percentage 0 —
the decision is `false` there (hash constantly 42). -/
theorem C8_witness :
    can_use_feature (fun _ => 42) c8_state "eco" "s1" = false :=
  (C8_gradual_boundaries (fun _ => 42) c8_state "eco" "s1" rfl rfl).1 rfl

/-- Applies exactly the valid phase entries of a list, in order (the prefix
of `import_config`'s phases loop that executes before a raise). -/
def applyValidPhases (pc : String → Option RolloutPhase)
    (l : List (String × String)) : String → Option RolloutPhase :=
  l.foldl (fun acc e =>
    match RolloutPhase.ofString e.2 with
    | some p => updMap acc e.1 (some p)
    | none => acc) pc

/-- The phases loop stops at the first invalid entry, keeping the updates
made before it. -/
theorem applyPhases_append_invalid (pc : String → Option RolloutPhase)
    (pre post : List (String × String)) (f bad : String)
    (hpre : ∀ e ∈ pre, (RolloutPhase.ofString e.2).isSome = true)
    (hbad : RolloutPhase.ofString bad = none) :
    applyPhases pc (pre ++ (f, bad) :: post) =
      (applyValidPhases pc pre, false) := by
  induction pre generalizing pc with
  | nil =>
    simp only [List.nil_append, applyPhases, hbad, applyValidPhases,
      List.foldl_nil]
  | cons e rest ih =>
    obtain ⟨p, hp⟩ := Option.isSome_iff_exists.mp (hpre e (by simp))
    simp only [List.cons_append, applyPhases, hp, applyValidPhases,
      List.foldl_cons]
    exact ih _ fun e' h' => hpre e' (by simp [h'])

/-- A one-feature registry with `economy` in phase `gradual`. -/
def c2_state : RolloutState where
  phase_config := fun f => if f = "economy" then some RolloutPhase.gradual
    else none
  rollout_percentages := fun _ => none
  whitelist := fun _ => []
  blacklist := fun _ => []

/-- An import payload whose second phase string, `bogus`, is not a valid
phase enum value. -/
def c2_cfg : ImportConfig where
  phases := [("economy", "stable"), ("tickets", "bogus")]
  percentages := []
  whitelist := []
  blacklist := []

/-- C2 counterexample: importing a configuration that contains the invalid
phase string `bogus` still mutates the registry — the valid entry processed
before it flips `economy` from `gradual` to `stable`, so the import is not
all-or-nothing and the registry is not what it was before the call. -/
theorem C2_counterexample :
    RolloutPhase.ofString "bogus" = none ∧
    c2_state.phase_config "economy" = some RolloutPhase.gradual ∧
    (import_config c2_state c2_cfg).phase_config "economy" =
      some RolloutPhase.stable := by
  refine ⟨rfl, rfl, rfl⟩

/-- C2 amended: `import_config` is not atomic. When the phases section
splits as valid entries `pre` followed by an entry with an invalid phase
string, the result applies exactly the `pre` updates to the phase map (the
`ValueError` from the invalid entry is caught by the blanket `except`,
abandoning the rest), and the percentage, whitelist and blacklist sections
are left untouched. -/
theorem C2_import_first_invalid_partial (s : RolloutState)
    (cfg : ImportConfig) (pre post : List (String × String)) (f bad : String)
    (hsplit : cfg.phases = pre ++ (f, bad) :: post)
    (hpre : ∀ e ∈ pre, (RolloutPhase.ofString e.2).isSome = true)
    (hbad : RolloutPhase.ofString bad = none) :
    import_config s cfg =
      { s with phase_config := applyValidPhases s.phase_config pre } := by
  unfold import_config
  rw [hsplit, applyPhases_append_invalid s.phase_config pre post f bad hpre hbad]

/-- Witness for `C2_import_first_invalid_partial` at the concrete state and
payload of the counterexample. -/
theorem C2_witness :
    import_config c2_state c2_cfg =
      { c2_state with phase_config :=
          applyValidPhases c2_state.phase_config [("economy", "stable")] } :=
  C2_import_first_invalid_partial c2_state c2_cfg [("economy", "stable")] []
    "tickets" "bogus" rfl (by decide) rfl

/-- C10: unknown feature names are disabled. A feature with no entry in
`StoatRolloutManager._phase_config` gets the default phase `internal` and
`can_use_feature` returns `false` for every tenant; likewise
`StoatFeatureFlags.is_enabled` returns `false` for a flag name absent from
its registry, for every (optional) server id. -/
theorem C10_unknown_feature_disabled :
    (∀ (h : String → Int) (s : RolloutState) (feature server_id : String),
      s.phase_config feature = none →
      can_use_feature h s feature server_id = false) ∧
    (∀ (h : String → Int) (ff : StoatFeatureFlags) (feature : String)
      (server_id : Option String),
      ff.flags feature = none →
      is_enabled h ff feature server_id = false) := by
  constructor
  · intro h s feature server_id hnone
    unfold can_use_feature
    rw [hnone]
    cases hb : (s.blacklist feature).elem server_id <;> rfl
  · intro h ff feature server_id hnone
    unfold is_enabled
    rw [hnone]

/-- Witness for `C10_unknown_feature_disabled` on the empty registries. -/
theorem C10_witness :
    can_use_feature (fun _ => 5)
      (RolloutState.mk (fun _ => none) (fun _ => none)
        (fun _ => []) (fun _ => [])) "mystery" "s1" = false ∧
    is_enabled (fun _ => 5) (StoatFeatureFlags.mk (fun _ => none))
      "mystery" (some "s1") = false :=
  ⟨C10_unknown_feature_disabled.1 (fun _ => 5) _ "mystery" "s1" rfl,
   C10_unknown_feature_disabled.2 (fun _ => 5) _ "mystery" (some "s1") rfl⟩

/-- The empty lookup provider: every member, role and guild is absent. -/
def emptyDb : Db where
  members := fun _ _ => none
  roles := fun _ _ => none
  guilds := fun _ => none

/-- C7: unknown permission names fail open. If the lowercased name is not a
key of the static `permissions_map` table, the required level defaults to 0
and `has_permission` returns `true` for every lookup provider and every
user, including users with no member record (every resolved level is a
natural number, hence ≥ 0). -/
theorem C7_unknown_permission_fail_open (permission : String)
    (hunk : PermissionChecker.permissions_map.lookup
      (PermissionChecker.strLower permission) = none)
    (db : Db) (guild_id user_id : String) :
    PermissionChecker.has_permission db guild_id user_id permission = true := by
  show decide (((PermissionChecker.permissions_map.lookup
    (PermissionChecker.strLower permission)).getD 0) ≤
    PermissionChecker.get_permission_level db guild_id user_id) = true
  rw [hunk]
  exact decide_eq_true (Nat.zero_le _)

/-- Witness for `C7_unknown_permission_fail_open`: the name
`fly_spaceship` is not in the table, and a user with no member record in an
empty provider is granted it. -/
theorem C7_witness :
    PermissionChecker.permissions_map.lookup
      (PermissionChecker.strLower "fly_spaceship") = none ∧
    PermissionChecker.has_permission emptyDb "g" "u" "fly_spaceship" = true :=
  ⟨by decide,
   C7_unknown_permission_fail_open "fly_spaceship" (by decide) emptyDb "g" "u"⟩

/-- C9 counterexample: at a concrete input, neither entry point returns the
pair `(false, "cannot act on self")` claimed by the spec — the actual
reason strings are `"Cannot moderate yourself"` (RoleHierarchy) and
`"You cannot moderate yourself"` (utils PermissionChecker). -/
theorem C9_counterexample :
    RoleHierarchy.can_moderate_member emptyDb "a" "a" "g" ≠
      (false, some "cannot act on self") ∧
    PermissionChecker.can_moderate emptyDb "g" "a" "a" ≠
      (false, some "cannot act on self") := by
  constructor <;> decide

/-- C9 amended: self-moderation is always denied, by the first step of the
decision chain, before any lookup (the result is independent of the lookup
provider), for every user including the owner — but the reason strings are
`"Cannot moderate yourself"` for `RoleHierarchy.can_moderate_member` and
`"You cannot moderate yourself"` for `PermissionChecker.can_moderate`, not
`"cannot act on self"`. -/
theorem C9_self_moderation_denied (db : Db) (g a : String) :
    RoleHierarchy.can_moderate_member db a a g =
      (false, some "Cannot moderate yourself") ∧
    PermissionChecker.can_moderate db g a a =
      (false, some "You cannot moderate yourself") := by
  constructor
  · unfold RoleHierarchy.can_moderate_member
    rw [if_pos rfl]
  · unfold PermissionChecker.can_moderate
    rw [if_pos rfl]

/-- A provider where guild `g` (owner `o`) and the target member `t` exist,
but the owner `o` has no member record. -/
def c4_db : Db where
  members := fun g u =>
    if g = "g" then
      if u = "t" then some (Member.mk [] false false []) else none
    else none
  roles := fun _ _ => none
  guilds := fun g => if g = "g" then some (Guild.mk "o") else none

/-- C4 counterexample: the guild owner `o` (who has no member record) is
denied moderation of target `t` with "Member not found" — the
member-existence check runs before the owner check, so the owner is not
allowed unconditionally. -/
theorem C4_counterexample :
    c4_db.guilds "g" = some (Guild.mk "o") ∧
    c4_db.members "g" "o" = none ∧
    (c4_db.members "g" "t").isSome = true ∧
    RoleHierarchy.can_moderate_member c4_db "o" "t" "g" =
      (false, some "Member not found") ∧
    RoleHierarchy.can_moderate_member c4_db "o" "t" "g" ≠ (true, none) := by
  refine ⟨rfl, rfl, rfl, rfl, by decide⟩

/-- C4 amended: owner supremacy holds once both member records exist — if
the guild resolves with owner `a`, `a ≠ t`, and both `a` and `t` have
member records, `can_moderate_member` allows with no further checks (no
moderation-permission check, no role-hierarchy comparison, so it allows
even with no roles / top-role position −1); with a missing member record
the owner is denied with "Member not found". -/
theorem C4_owner_supremacy (db : Db) (g a t : String) (guild : Guild)
    (hg : db.guilds g = some guild) (howner : guild.owner_id = a)
    (hne : a ≠ t)
    (hma : (db.members g a).isSome = true)
    (hmt : (db.members g t).isSome = true) :
    RoleHierarchy.can_moderate_member db a t g = (true, none) := by
  obtain ⟨ma, hma'⟩ := Option.isSome_iff_exists.mp hma
  obtain ⟨mt, hmt'⟩ := Option.isSome_iff_exists.mp hmt
  unfold RoleHierarchy.can_moderate_member
  rw [if_neg hne]
  simp only [hma', hmt', hg]
  rw [if_pos howner.symm]

/-- A provider where guild `g` (owner `o`) and member records for both the
owner and the target exist; neither has any roles. -/
def c4w_db : Db where
  members := fun g u =>
    if g = "g" then
      if u = "o" then some (Member.mk [] false false [])
      else if u = "t" then some (Member.mk [] false false [])
      else none
    else none
  roles := fun _ _ => none
  guilds := fun g => if g = "g" then some (Guild.mk "o") else none

/-- Witness for `C4_owner_supremacy`: owner `o` with a member record and
no roles moderates `t`. -/
theorem C4_witness :
    RoleHierarchy.can_moderate_member c4w_db "o" "t" "g" = (true, none) :=
  C4_owner_supremacy c4w_db "g" "o" "t" (Guild.mk "o") rfl rfl (by decide)
    rfl rfl

/-- A provider for the C5 counterexample: moderator `m` holds
`kick_members` and a resolvable role `r1` at position 5; target `t`
references only the nonexistent role `rX`. -/
def c5_db : Db where
  members := fun g u =>
    if g = "g" then
      if u = "m" then some (Member.mk ["r1"] false false ["kick_members"])
      else if u = "t" then some (Member.mk ["rX"] false false [])
      else none
    else none
  roles := fun g r =>
    if g = "g" then (if r = "r1" then some (Role.mk 5) else none) else none
  guilds := fun g => if g = "g" then some (Guild.mk "o") else none

/-- C5 counterexample: the target's only role `rX` is a role lookup that
returns not-found, yet `can_moderate_member` returns allow — missing roles
are silently skipped when computing the top role (the target falls back to
position −1), so a not-found role lookup is not resolved to a deny. -/
theorem C5_counterexample :
    c5_db.roles "g" "rX" = none ∧
    RoleHierarchy.can_moderate_member c5_db "m" "t" "g" = (true, none) := by
  refine ⟨rfl, rfl⟩

/-- C5 amended: a missing member or guild lookup always yields a deny
decision and never propagates an exception: `can_moderate_member` denies
with "Member not found" when either member record is absent, and with
"Permission check failed" when the guild is absent (the `AttributeError`
from `None.get` is caught by the handler); `can_manage_role` returns
`False` (it has no reason channel) in the analogous cases. Missing role
lookups, by contrast, are skipped in the top-role computation and do not
force a deny. -/
theorem C5_notfound_is_deny :
    (∀ (db : Db) (m t g : String), m ≠ t →
      db.members g m = none ∨ db.members g t = none →
      RoleHierarchy.can_moderate_member db m t g =
        (false, some "Member not found")) ∧
    (∀ (db : Db) (m t g : String), m ≠ t →
      (db.members g m).isSome = true → (db.members g t).isSome = true →
      db.guilds g = none →
      RoleHierarchy.can_moderate_member db m t g =
        (false, some "Permission check failed")) ∧
    (∀ (db : Db) (e r g : String),
      db.members g e = none ∨ db.roles g r = none →
      RoleHierarchy.can_manage_role db e r g = false) ∧
    (∀ (db : Db) (e r g : String),
      (db.members g e).isSome = true → (db.roles g r).isSome = true →
      db.guilds g = none →
      RoleHierarchy.can_manage_role db e r g = false) := by
  refine ⟨?_, ?_, ?_, ?_⟩
  · intro db m t g hne hnone
    unfold RoleHierarchy.can_moderate_member
    rw [if_neg hne]
    rcases hnone with hm | ht
    · rw [hm]
    · cases hm : db.members g m <;> simp only [hm, ht]
  · intro db m t g hne hm ht hguild
    obtain ⟨mm, hm'⟩ := Option.isSome_iff_exists.mp hm
    obtain ⟨mt, ht'⟩ := Option.isSome_iff_exists.mp ht
    unfold RoleHierarchy.can_moderate_member
    rw [if_neg hne]
    simp only [hm', ht', hguild]
  · intro db e r g hnone
    unfold RoleHierarchy.can_manage_role
    rcases hnone with he | hr
    · rw [he]
    · cases he : db.members g e <;> simp only [he, hr]
  · intro db e r g he hr hguild
    obtain ⟨me, he'⟩ := Option.isSome_iff_exists.mp he
    obtain ⟨ro, hr'⟩ := Option.isSome_iff_exists.mp hr
    unfold RoleHierarchy.can_manage_role
    simp only [he', hr', hguild]

/-- A provider with member and role records under guild `g` but no guild
record at all (guild lookup always not-found). -/
def c5w_db : Db where
  members := fun g u =>
    if g = "g" then
      if u = "m" then some (Member.mk [] false false [])
      else if u = "t" then some (Member.mk [] false false [])
      else none
    else none
  roles := fun g r =>
    if g = "g" then (if r = "r1" then some (Role.mk 5) else none) else none
  guilds := fun _ => none

/-- Witness for `C5_notfound_is_deny`: all four parts applied at concrete
inputs — missing members/roles on the empty provider, missing guild on
`c5w_db`. -/
theorem C5_witness :
    RoleHierarchy.can_moderate_member emptyDb "a" "b" "g" =
      (false, some "Member not found") ∧
    RoleHierarchy.can_moderate_member c5w_db "m" "t" "g" =
      (false, some "Permission check failed") ∧
    RoleHierarchy.can_manage_role emptyDb "a" "r" "g" = false ∧
    RoleHierarchy.can_manage_role c5w_db "m" "r1" "g" = false :=
  ⟨C5_notfound_is_deny.1 emptyDb "a" "b" "g" (by decide) (Or.inl rfl),
   C5_notfound_is_deny.2.1 c5w_db "m" "t" "g" (by decide) rfl rfl rfl,
   C5_notfound_is_deny.2.2.1 emptyDb "a" "r" "g" (Or.inl rfl),
   C5_notfound_is_deny.2.2.2 c5w_db "m" "r1" "g" rfl rfl rfl⟩

/-- Two distinct non-owner members `a`, `b` with no roles (equal top-role
position −1) and no moderation permissions. -/
def c6a_db : Db where
  members := fun g u =>
    if g = "g" then
      if u = "a" ∨ u = "b" then some (Member.mk [] false false []) else none
    else none
  roles := fun _ _ => none
  guilds := fun g => if g = "g" then some (Guild.mk "o") else none

/-- Like `c6a_db`, but both members hold `kick_members`. -/
def c6b_db : Db where
  members := fun g u =>
    if g = "g" then
      if u = "a" ∨ u = "b" then
        some (Member.mk [] false false ["kick_members"])
      else none
    else none
  roles := fun _ _ => none
  guilds := fun g => if g = "g" then some (Guild.mk "o") else none

/-- C6 counterexample: for two distinct non-owner members with equal
top-role positions the claim's deny reason does not hold as stated — when
the actor lacks `kick_members`/`ban_members` the deny reason is
"You don't have permission to moderate" (the permission gate fires before
the hierarchy comparison), and even when the gate passes the code's reason
string is capitalised "Target has equal or higher role", not the claimed
"target has equal or higher role". -/
theorem C6_counterexample :
    RoleHierarchy.can_moderate_member c6a_db "a" "b" "g" =
      (false, some "You don't have permission to moderate") ∧
    RoleHierarchy.can_moderate_member c6a_db "b" "a" "g" =
      (false, some "You don't have permission to moderate") ∧
    RoleHierarchy.can_moderate_member c6b_db "a" "b" "g" =
      (false, some "Target has equal or higher role") ∧
    "Target has equal or higher role" ≠ "target has equal or higher role" := by
  refine ⟨rfl, rfl, rfl, by decide⟩

/-- C6 amended: for two distinct non-owner members of the same tenant with
equal top-role positions (−1 when no roles resolve), both of whom pass the
moderation-permission gate (`kick_members` or `ban_members`, or admin),
`can_moderate_member` denies in both directions with reason
"Target has equal or higher role"; and whenever it allows for a non-owner
actor, the actor's top-role position is strictly greater than the
target's. -/
theorem C6_tiebreak_denies_both (db : Db) (g a b : String) (guild : Guild)
    (ma mb : Member)
    (hg : db.guilds g = some guild)
    (hne : a ≠ b)
    (hma : db.members g a = some ma) (hmb : db.members g b = some mb)
    (hoa : a ≠ guild.owner_id) (hob : b ≠ guild.owner_id)
    (hpa : (RoleHierarchy.check_permission db g a "kick_members" ||
      RoleHierarchy.check_permission db g a "ban_members") = true)
    (hpb : (RoleHierarchy.check_permission db g b "kick_members" ||
      RoleHierarchy.check_permission db g b "ban_members") = true)
    (htop : RoleHierarchy.get_top_role_position db g ma.roles =
      RoleHierarchy.get_top_role_position db g mb.roles) :
    RoleHierarchy.can_moderate_member db a b g =
      (false, some "Target has equal or higher role") ∧
    RoleHierarchy.can_moderate_member db b a g =
      (false, some "Target has equal or higher role") ∧
    (∀ (db2 : Db) (g2 a2 b2 : String) (guild2 : Guild) (ma2 mb2 : Member),
      db2.guilds g2 = some guild2 → a2 ≠ guild2.owner_id →
      db2.members g2 a2 = some ma2 → db2.members g2 b2 = some mb2 →
      (RoleHierarchy.can_moderate_member db2 a2 b2 g2).1 = true →
      RoleHierarchy.get_top_role_position db2 g2 mb2.roles <
        RoleHierarchy.get_top_role_position db2 g2 ma2.roles) := by
  refine ⟨?_, ?_, ?_⟩
  · unfold RoleHierarchy.can_moderate_member
    rw [if_neg hne]
    simp only [hma, hmb, hg]
    rw [if_neg hoa, if_neg hob, hpa, htop]
    simp
  · unfold RoleHierarchy.can_moderate_member
    rw [if_neg (Ne.symm hne)]
    simp only [hma, hmb, hg]
    rw [if_neg hob, if_neg hoa, hpb, htop]
    simp
  · intro db2 g2 a2 b2 guild2 ma2 mb2 hg2 hoa2 hma2 hmb2 htrue
    by_cases heq : a2 = b2
    · unfold RoleHierarchy.can_moderate_member at htrue
      rw [if_pos heq] at htrue
      simp at htrue
    · unfold RoleHierarchy.can_moderate_member at htrue
      rw [if_neg heq] at htrue
      simp only [hma2, hmb2, hg2] at htrue
      rw [if_neg hoa2] at htrue
      by_cases hb2 : b2 = guild2.owner_id
      · rw [if_pos hb2] at htrue
        simp at htrue
      · rw [if_neg hb2] at htrue
        cases hperm : (RoleHierarchy.check_permission db2 g2 a2 "kick_members" ||
            RoleHierarchy.check_permission db2 g2 a2 "ban_members") with
        | false =>
          rw [hperm] at htrue
          simp at htrue
        | true =>
          rw [hperm] at htrue
          simp only [Bool.not_true] at htrue
          rw [if_neg (show ¬(false = true) by simp)] at htrue
          by_cases htle : RoleHierarchy.get_top_role_position db2 g2 ma2.roles ≤
              RoleHierarchy.get_top_role_position db2 g2 mb2.roles
          · rw [if_pos htle] at htrue
            simp at htrue
          · exact not_le.mp htle

/-- Witness for `C6_tiebreak_denies_both` on `c6b_db`: roleless members
`a` and `b` holding `kick_members` tie at position −1 and `a` is denied
against `b` with the hierarchy reason. -/
theorem C6_witness :
    RoleHierarchy.can_moderate_member c6b_db "a" "b" "g" =
      (false, some "Target has equal or higher role") :=
  (C6_tiebreak_denies_both c6b_db "g" "a" "b" (Guild.mk "o")
    (Member.mk [] false false ["kick_members"])
    (Member.mk [] false false ["kick_members"])
    rfl (by decide) rfl rfl (by decide) (by decide) rfl rfl rfl).1
